import Mathlib

/-!
Shallow embedding of the `fastapi-todo-app` todo backend
(`app/models/todo.py`, `app/repositories/todo_repository.py`,
`app/services/todo_service.py`).

The MongoDB document store is modelled as a list of stored records in
natural (insertion) order; `find_one` is the first match, `update_one`
rewrites the first match, `delete_one` removes the first match.  Mongo's
server-assigned `ObjectId` is modelled as a `String` (its 24-hex-digit
text form); `bson.ObjectId.is_valid` on a string checks exactly that
shape.  Instants (`datetime.utcnow()`) are modelled as `Nat` ticks.
-/

namespace TodoApp

/-- `TodoStatus` enumeration from `app/models/todo.py`. -/
inductive TodoStatus where
  | pending
  | in_progress
  | completed
deriving DecidableEq, Repr

/-- `TodoPriority` enumeration from `app/models/todo.py`. -/
inductive TodoPriority where
  | low
  | medium
  | high
deriving DecidableEq, Repr

/-- The string value of a `TodoStatus` member (these are `str` enums). -/
def statusStr : TodoStatus → String
  | .pending => "pending"
  | .in_progress => "in_progress"
  | .completed => "completed"

/-- The string value of a `TodoPriority` member (these are `str` enums). -/
def priorityStr : TodoPriority → String
  | .low => "low"
  | .medium => "medium"
  | .high => "high"

/-- `TodoCreate` input schema: base fields, no id or timestamps. -/
structure TodoCreate where
  title : String
  description : Option String
  status : TodoStatus
  priority : TodoPriority
  due_date : Option Nat
deriving DecidableEq, Repr

/-- `TodoUpdate` partial-update schema: every field optional. -/
structure TodoUpdate where
  title : Option String
  description : Option String
  status : Option TodoStatus
  priority : Option TodoPriority
  due_date : Option Nat
deriving DecidableEq, Repr

/-- `TodoInDB`: stored form of a record, as held by the document store. -/
structure TodoInDB where
  id : String
  title : String
  description : Option String
  status : TodoStatus
  priority : TodoPriority
  due_date : Option Nat
  created_at : Nat
  updated_at : Nat
deriving DecidableEq, Repr

/-- `TodoResponse`: response form, id serialized as plain text. -/
structure TodoResponse where
  id : String
  title : String
  description : Option String
  status : TodoStatus
  priority : TodoPriority
  due_date : Option Nat
  created_at : Nat
  updated_at : Nat
deriving DecidableEq, Repr

/-- `TodoListResponse`: the paginated page envelope. -/
structure TodoListResponse where
  todos : List TodoResponse
  total : Nat
  page : Nat
  size : Nat
  pages : Nat
deriving DecidableEq, Repr

/-- The store: documents of the todos collection in natural order. -/
abbrev Store := List TodoInDB

/-- A hexadecimal digit, as accepted by `bson.ObjectId.is_valid`. -/
def isHexDigit (c : Char) : Bool :=
  c.isDigit || (('a' ≤ c) && (c ≤ 'f')) || (('A' ≤ c) && (c ≤ 'F'))

/-- `bson.ObjectId.is_valid` on a string: exactly 24 hex characters. -/
def isValidObjectId (s : String) : Bool :=
  s.length == 24 && s.toList.all isHexDigit

/-- Document matcher for the `{"_id": oid}` point query. -/
def idMatches (todo_id : String) (r : TodoInDB) : Bool :=
  r.id == todo_id

/-- `TodoRepository.create_todo`: stamps both timestamps with `now`,
inserts, then re-reads the inserted document by the store-assigned id
(`new_id` stands for `result.inserted_id`).  Returns the re-read record
(`none` would be the crash of `TodoInDB(**None)`, unreachable for a
fresh id) and the new store. -/
def create_todo (now : Nat) (new_id : String) (d : TodoCreate) (store : Store) :
    Option TodoInDB × Store :=
  let doc : TodoInDB :=
    { id := new_id, title := d.title, description := d.description,
      status := d.status, priority := d.priority, due_date := d.due_date,
      created_at := now, updated_at := now }
  let store' := store ++ [doc]
  (store'.find? (idMatches new_id), store')

/-- `TodoRepository.get_todo_by_id`: `None` on a malformed id, else
`find_one({"_id": ObjectId(todo_id)})`. -/
def get_todo_by_id (todo_id : String) (store : Store) : Option TodoInDB :=
  if !isValidObjectId todo_id then none
  else store.find? (idMatches todo_id)

/-- `True` when the partial update populates at least one field: the
`update_data` dict built on line 129 of the repository is non-empty. -/
def hasUpdates (u : TodoUpdate) : Bool :=
  u.title.isSome || u.description.isSome || u.status.isSome ||
    u.priority.isSome || u.due_date.isSome

/-- The effect of `{"$set": update_data}` on a matched document:
only the populated fields plus the refreshed `updated_at` are written. -/
def applyUpdate (u : TodoUpdate) (now : Nat) (r : TodoInDB) : TodoInDB :=
  { r with
    title := u.title.getD r.title
    description := match u.description with
      | some d => some d
      | none => r.description
    status := u.status.getD r.status
    priority := u.priority.getD r.priority
    due_date := match u.due_date with
      | some d => some d
      | none => r.due_date
    updated_at := now }

/-- `update_one`: rewrite the first document matching the id. -/
def setFirst (todo_id : String) (f : TodoInDB → TodoInDB) : Store → Store
  | [] => []
  | r :: rs => if idMatches todo_id r then f r :: rs else r :: setFirst todo_id f rs

/-- `TodoRepository.update_todo`: `None` on a malformed id; on an empty
update returns the current record with no write; otherwise writes the
populated fields plus `updated_at := now` and re-reads, but only when the
store reports the document as actually modified (`modified_count`), i.e.
the `$set` changed it. -/
def update_todo (now : Nat) (todo_id : String) (u : TodoUpdate) (store : Store) :
    Option TodoInDB × Store :=
  if !isValidObjectId todo_id then (none, store)
  else if !hasUpdates u then (get_todo_by_id todo_id store, store)
  else
    match store.find? (idMatches todo_id) with
    | none => (none, store)
    | some m =>
      let store' := setFirst todo_id (applyUpdate u now) store
      if applyUpdate u now m ≠ m then (get_todo_by_id todo_id store', store')
      else (none, store)

/-- `delete_one`: remove the first document matching the id. -/
def deleteFirst (todo_id : String) : Store → Store
  | [] => []
  | r :: rs => if idMatches todo_id r then rs else r :: deleteFirst todo_id rs

/-- `TodoRepository.delete_todo`: `False` on a malformed id; otherwise
deletes and reports `deleted_count > 0`. -/
def delete_todo (todo_id : String) (store : Store) : Bool × Store :=
  if !isValidObjectId todo_id then (false, store)
  else (store.any (idMatches todo_id), deleteFirst todo_id store)

/-- The filter query built by `TodoRepository.get_todos` from the present
optional filters (absent fields are unconstrained). -/
def matchesFilter (status : Option TodoStatus) (priority : Option TodoPriority)
    (r : TodoInDB) : Bool :=
  (match status with
    | some s => r.status == s
    | none => true) &&
  (match priority with
    | some p => r.priority == p
    | none => true)

/-- MongoDB's binary comparison of two UTF-8 strings, code unit by code
unit (a missing tail sorts first). -/
def charListLe : List Char → List Char → Bool
  | [], _ => true
  | _ :: _, [] => false
  | a :: as, b :: bs =>
    if a.toNat < b.toNat then true
    else if b.toNat < a.toNat then false
    else charListLe as bs

/-- BSON ascending order on an optional string field (null sorts first). -/
def optStrLe : Option String → Option String → Bool
  | none, _ => true
  | some _, none => false
  | some a, some b => charListLe a.toList b.toList

/-- BSON ascending order on an optional date field (null sorts first). -/
def optNatLe : Option Nat → Option Nat → Bool
  | none, _ => true
  | some _, none => false
  | some a, some b => a ≤ b

/-- BSON ascending order of two documents on the named sort field.
`status` and `priority` are stored as their enum string values, so the
store compares those strings byte-wise.  A field name no document carries
makes every pair tie. -/
def fieldLe (field : String) (a b : TodoInDB) : Bool :=
  if field == "title" then charListLe a.title.toList b.title.toList
  else if field == "description" then optStrLe a.description b.description
  else if field == "status" then
    charListLe (statusStr a.status).toList (statusStr b.status).toList
  else if field == "priority" then
    charListLe (priorityStr a.priority).toList (priorityStr b.priority).toList
  else if field == "due_date" then optNatLe a.due_date b.due_date
  else if field == "created_at" then decide (a.created_at ≤ b.created_at)
  else if field == "updated_at" then decide (a.updated_at ≤ b.updated_at)
  else true

/-- `sort_order.lower() == "desc"`, lowering character by character (the
routing layer only lets the ASCII words `asc` and `desc` through). -/
def lowerIsDesc (sort_order : String) : Bool :=
  sort_order.toList.map Char.toLower == "desc".toList

/-- The document order requested from the store: ascending on the sort
field, or its reverse when `sort_order.lower() == "desc"`. -/
def sortLe (sort_by sort_order : String) (a b : TodoInDB) : Bool :=
  if lowerIsDesc sort_order then fieldLe sort_by b a
  else fieldLe sort_by a b

/-- Insert into an already ordered list (stable). -/
def orderedInsert (le : TodoInDB → TodoInDB → Bool) (x : TodoInDB) :
    List TodoInDB → List TodoInDB
  | [] => [x]
  | y :: ys => if le x y then x :: y :: ys else y :: orderedInsert le x ys

/-- The store's sort of a result set (deterministic model of
`cursor.sort(sort_query)`). -/
def sortTodos (le : TodoInDB → TodoInDB → Bool) : List TodoInDB → List TodoInDB
  | [] => []
  | x :: xs => orderedInsert le x (sortTodos le xs)

/-- `cursor.limit(n)`: Mongo treats a limit of 0 as "no limit". -/
def applyLimit (limit : Nat) (l : List TodoInDB) : List TodoInDB :=
  if limit == 0 then l else l.take limit

/-- `TodoRepository.get_todos`: count over the whole filtered set, then
the sorted / skipped / limited page of matching documents. -/
def get_todos_repo (skip limit : Nat) (status : Option TodoStatus)
    (priority : Option TodoPriority) (sort_by sort_order : String)
    (store : Store) : List TodoInDB × Nat :=
  let filtered := store.filter (matchesFilter status priority)
  let total := filtered.length
  let sorted := sortTodos (sortLe sort_by sort_order) filtered
  (applyLimit limit (sorted.drop skip), total)

/-- `TodoRepository.get_todos_by_status`. -/
def get_todos_by_status (status : TodoStatus) (store : Store) : List TodoInDB :=
  store.filter (fun r => r.status == status)

/-- A document matching `{"due_date": {"$lt": now}, "status": {"$ne":
completed}}`: `$lt` on a date matches only documents whose `due_date` is a
date (null never matches), strictly before `now`. -/
def isOverdue (now : Nat) (r : TodoInDB) : Bool :=
  (match r.due_date with
    | some d => d < now
    | none => false) && !(r.status == TodoStatus.completed)

/-- `TodoRepository.get_overdue_todos`. -/
def get_overdue_todos (now : Nat) (store : Store) : List TodoInDB :=
  store.filter (isOverdue now)

/-- `TodoService._convert_to_response`: stored form to response form. -/
def toResponse (t : TodoInDB) : TodoResponse :=
  { id := t.id, title := t.title, description := t.description,
    status := t.status, priority := t.priority, due_date := t.due_date,
    created_at := t.created_at, updated_at := t.updated_at }

/-- `TodoService.get_todos`: converts `page`/`size` to `skip`, delegates
to the repository, computes `pages = ceil(total / size)` when
`total > 0` else `1`, and packages the envelope. -/
def get_todos_service (page size : Nat) (status : Option TodoStatus)
    (priority : Option TodoPriority) (sort_by sort_order : String)
    (store : Store) : TodoListResponse :=
  let skip := (page - 1) * size
  let (todos, total) := get_todos_repo skip size status priority sort_by sort_order store
  let pages := if total > 0 then (total + size - 1) / size else 1
  { todos := todos.map toResponse, total := total, page := page,
    size := size, pages := pages }

/-! ### Helper lemmas about the store model -/

lemma find_of_fresh (p : TodoInDB → Bool) (store : Store) (doc : TodoInDB)
    (hfresh : ∀ r ∈ store, p r = false) (hdoc : p doc = true) :
    (store ++ [doc]).find? p = some doc := by
  induction store with
  | nil => simp [List.find?, hdoc]
  | cons r rs ih =>
    have hr : p r = false := hfresh r (by simp)
    rw [List.cons_append, List.find?_cons_of_neg _ (by simp [hr])]
    exact ih (fun x hx => hfresh x (by simp [hx]))

lemma find_setFirst (todo_id : String) (f : TodoInDB → TodoInDB) (store : Store)
    (m : TodoInDB) (hf : (f m).id = m.id)
    (h : store.find? (idMatches todo_id) = some m) :
    (setFirst todo_id f store).find? (idMatches todo_id) = some (f m) := by
  induction store with
  | nil => simp [List.find?] at h
  | cons r rs ih =>
    by_cases hr : idMatches todo_id r
    · rw [List.find?_cons_of_pos _ hr] at h
      injection h with h
      subst h
      have hfr : idMatches todo_id (f r) := by
        simpa [idMatches, hf] using hr
      simp only [setFirst, if_pos hr]
      rw [List.find?_cons_of_pos _ hfr]
    · rw [List.find?_cons_of_neg _ hr] at h
      simp only [setFirst, if_neg hr]
      rw [List.find?_cons_of_neg _ hr]
      exact ih h

lemma mem_setFirst (todo_id : String) (f : TodoInDB → TodoInDB) (store : Store)
    (x : TodoInDB) (hx : x ∈ setFirst todo_id f store) :
    x ∈ store ∨ ∃ r ∈ store, x = f r := by
  induction store with
  | nil => simp [setFirst] at hx
  | cons r rs ih =>
    by_cases hr : idMatches todo_id r
    · simp only [setFirst, if_pos hr] at hx
      rcases List.mem_cons.mp hx with h | h
      · exact Or.inr ⟨r, by simp, h⟩
      · exact Or.inl (List.mem_cons_of_mem _ h)
    · simp only [setFirst, if_neg hr] at hx
      rcases List.mem_cons.mp hx with h | h
      · exact Or.inl (by simp [h])
      · rcases ih h with h' | ⟨y, hy, hxy⟩
        · exact Or.inl (List.mem_cons_of_mem _ h')
        · exact Or.inr ⟨y, List.mem_cons_of_mem _ hy, hxy⟩

lemma mem_deleteFirst (todo_id : String) (store : Store) (x : TodoInDB)
    (hx : x ∈ deleteFirst todo_id store) : x ∈ store := by
  induction store with
  | nil => simp [deleteFirst] at hx
  | cons r rs ih =>
    by_cases hr : idMatches todo_id r
    · simp only [deleteFirst, if_pos hr] at hx
      exact List.mem_cons_of_mem _ hx
    · simp only [deleteFirst, if_neg hr] at hx
      rcases List.mem_cons.mp hx with h | h
      · simp [h]
      · exact List.mem_cons_of_mem _ (ih h)

lemma deleteFirst_no_match (todo_id : String) (store : Store)
    (h : ∀ r ∈ store, idMatches todo_id r = false) :
    deleteFirst todo_id store = store := by
  induction store with
  | nil => rfl
  | cons r rs ih =>
    have hr : idMatches todo_id r = false := h r (by simp)
    simp only [deleteFirst, hr, Bool.false_eq_true, if_false]
    rw [ih (fun x hx => h x (by simp [hx]))]

lemma deleteFirst_one_match (todo_id : String) (store : Store)
    (h : (store.filter (idMatches todo_id)).length = 1) :
    store.any (idMatches todo_id) = true ∧
    (deleteFirst todo_id store).length + 1 = store.length ∧
    ∀ r ∈ deleteFirst todo_id store, idMatches todo_id r = false := by
  induction store with
  | nil => simp at h
  | cons r rs ih =>
    by_cases hr : idMatches todo_id r
    · have hrs : ∀ x ∈ rs, idMatches todo_id x = false := by
        have : (rs.filter (idMatches todo_id)).length = 0 := by
          rw [List.filter_cons_of_pos hr] at h
          simpa using h
        intro x hx
        have := List.filter_eq_nil_iff.mp (List.length_eq_zero.mp this) x hx
        simpa using this
      refine ⟨by simp [List.any_cons, hr], ?_, ?_⟩
      · simp [deleteFirst, hr]
      · intro x hx
        simp only [deleteFirst, if_pos hr] at hx
        exact hrs x hx
    · rw [List.filter_cons_of_neg hr] at h
      obtain ⟨h1, h2, h3⟩ := ih h
      refine ⟨by simp [List.any_cons, h1], ?_, ?_⟩
      · simp only [deleteFirst, hr, Bool.false_eq_true, if_false,
          List.length_cons]
        omega
      · intro x hx
        simp only [deleteFirst, hr, Bool.false_eq_true, if_false] at hx
        rcases List.mem_cons.mp hx with hxr | hxrs
        · simpa [hxr] using hr
        · exact h3 x hxrs

lemma length_orderedInsert (le : TodoInDB → TodoInDB → Bool) (x : TodoInDB)
    (l : List TodoInDB) : (orderedInsert le x l).length = l.length + 1 := by
  induction l with
  | nil => rfl
  | cons y ys ih =>
    simp only [orderedInsert]
    by_cases h : le x y
    · simp [h]
    · simp [h, ih]

lemma length_sortTodos (le : TodoInDB → TodoInDB → Bool) (l : List TodoInDB) :
    (sortTodos le l).length = l.length := by
  induction l with
  | nil => rfl
  | cons x xs ih => simp [sortTodos, length_orderedInsert, ih]

lemma join_chunks_bounded {α : Type} (size : Nat) (k : Nat) (l : List α)
    (h : l.length ≤ k * size) :
    ((List.range k).map (fun i => (l.drop (i * size)).take size)).flatten = l := by
  induction k generalizing l with
  | zero =>
    have : l = [] := List.eq_nil_of_length_eq_zero (by omega)
    simp [this]
  | succ k ih =>
    rw [List.range_succ_eq_map, List.map_cons, List.flatten_cons, List.map_map]
    have hcomp : ((fun i => (l.drop (i * size)).take size) ∘ Nat.succ)
        = fun i => ((l.drop size).drop (i * size)).take size := by
      funext i
      simp only [Function.comp]
      rw [List.drop_drop, Nat.succ_mul, Nat.add_comm (i * size) size]
    have hlen : (l.drop size).length ≤ k * size := by
      have hk : (k + 1) * size = k * size + size := by ring
      simp only [List.length_drop]
      omega
    rw [hcomp, ih (l.drop size) hlen]
    simp

lemma join_chunks {α : Type} (size : Nat) (l : List α) (hs : 0 < size) :
    ((List.range (if l.length = 0 then 1
        else (l.length + size - 1) / size)).map
      (fun i => (l.drop (i * size)).take size)).flatten = l := by
  by_cases h0 : l.length = 0
  · have : l = [] := List.eq_nil_of_length_eq_zero h0
    simp [this]
  · rw [if_neg h0]
    apply join_chunks_bounded
    have hmod := Nat.div_add_mod (l.length + size - 1) size
    have hlt : (l.length + size - 1) % size < size := Nat.mod_lt _ hs
    have hcomm : (l.length + size - 1) / size * size
        = size * ((l.length + size - 1) / size) := Nat.mul_comm _ _
    omega

/-! ### Claim theorems -/

/-- C1: for every valid creation input, creating a todo and then fetching
it by the returned id yields a record equal to the created one in all
fields; and in the record returned by create, `created_at` equals
`updated_at`, both stamped with the creation instant. -/
theorem create_then_get_roundtrip (now : Nat) (new_id : String) (d : TodoCreate)
    (store : Store)
    (hvalid : isValidObjectId new_id = true)
    (hfresh : ∀ r ∈ store, idMatches new_id r = false) :
    ∃ t : TodoInDB,
      (create_todo now new_id d store).1 = some t ∧
      get_todo_by_id t.id (create_todo now new_id d store).2 = some t ∧
      t.created_at = t.updated_at ∧ t.created_at = now ∧ t.updated_at = now ∧
      t.title = d.title ∧ t.description = d.description ∧
      t.status = d.status ∧ t.priority = d.priority ∧ t.due_date = d.due_date := by
  have hfind := find_of_fresh (idMatches new_id) store
    { id := new_id, title := d.title, description := d.description,
      status := d.status, priority := d.priority, due_date := d.due_date,
      created_at := now, updated_at := now }
    hfresh (by simp [idMatches])
  refine ⟨⟨new_id, d.title, d.description, d.status, d.priority, d.due_date,
      now, now⟩, ?_, ?_, rfl, rfl, rfl, rfl, rfl, rfl, rfl, rfl⟩
  · simpa [create_todo] using hfind
  · simpa [create_todo, get_todo_by_id, hvalid] using hfind

/-- C1 witness: the round trip evaluated on the empty store. -/
theorem create_then_get_roundtrip_witness :
    isValidObjectId "00000000000000000000000a" = true ∧
    (∀ r ∈ ([] : Store), idMatches "00000000000000000000000a" r = false) ∧
    (∃ t : TodoInDB,
      (create_todo 5 "00000000000000000000000a"
        ⟨"t", none, TodoStatus.pending, TodoPriority.low, none⟩ []).1 = some t ∧
      get_todo_by_id t.id
        (create_todo 5 "00000000000000000000000a"
          ⟨"t", none, TodoStatus.pending, TodoPriority.low, none⟩ []).2 = some t ∧
      t.created_at = t.updated_at ∧ t.created_at = 5 ∧ t.updated_at = 5 ∧
      t.title = "t" ∧ t.description = none ∧
      t.status = TodoStatus.pending ∧ t.priority = TodoPriority.low ∧
      t.due_date = none) :=
  ⟨by decide, by simp,
    create_then_get_roundtrip 5 "00000000000000000000000a"
      ⟨"t", none, TodoStatus.pending, TodoPriority.low, none⟩ []
      (by decide) (by simp)⟩

/-- C4: for every identifier that is not a well-formed `ObjectId`,
`get_todo_by_id` and `update_todo` return the absent result (and leave the
store untouched); in particular fetching `"not-a-valid-id"` is absent. -/
theorem malformed_id_absent (todo_id : String) (now : Nat) (u : TodoUpdate)
    (store : Store) (h : isValidObjectId todo_id = false) :
    get_todo_by_id todo_id store = none ∧
    update_todo now todo_id u store = (none, store) ∧
    get_todo_by_id "not-a-valid-id" store = none := by
  have h2 : isValidObjectId "not-a-valid-id" = false := by decide
  exact ⟨by simp [get_todo_by_id, h], by simp [update_todo, h],
    by simp [get_todo_by_id, h2]⟩

/-- C4 witness: a malformed id evaluated on a one-record store. -/
theorem malformed_id_absent_witness :
    isValidObjectId "xyz" = false ∧
    (get_todo_by_id "xyz"
        [⟨"00000000000000000000000a", "t", none, TodoStatus.pending,
          TodoPriority.low, none, 0, 0⟩] = none ∧
      update_todo 7 "xyz" ⟨none, none, none, none, none⟩
        [⟨"00000000000000000000000a", "t", none, TodoStatus.pending,
          TodoPriority.low, none, 0, 0⟩] =
        (none,
          [⟨"00000000000000000000000a", "t", none, TodoStatus.pending,
            TodoPriority.low, none, 0, 0⟩]) ∧
      get_todo_by_id "not-a-valid-id"
        [⟨"00000000000000000000000a", "t", none, TodoStatus.pending,
          TodoPriority.low, none, 0, 0⟩] = none) :=
  ⟨by decide,
    malformed_id_absent "xyz" 7 ⟨none, none, none, none, none⟩
      [⟨"00000000000000000000000a", "t", none, TodoStatus.pending,
        TodoPriority.low, none, 0, 0⟩] (by decide)⟩

/-- C5: a partial update with no populated fields performs no write: the
store is unchanged and the result is exactly the current lookup (the
stored record, or absent when the id does not exist), so no timestamp is
bumped. -/
theorem empty_update_no_write (now : Nat) (todo_id : String) (u : TodoUpdate)
    (store : Store) (h : hasUpdates u = false) :
    update_todo now todo_id u store = (get_todo_by_id todo_id store, store) := by
  cases hv : isValidObjectId todo_id with
  | false => simp [update_todo, get_todo_by_id, hv]
  | true => simp [update_todo, hv, h]

/-- C5 witness: the all-`none` update evaluated on a one-record store. -/
theorem empty_update_no_write_witness :
    hasUpdates ⟨none, none, none, none, none⟩ = false ∧
    update_todo 9 "00000000000000000000000a" ⟨none, none, none, none, none⟩
        [⟨"00000000000000000000000a", "t", none, TodoStatus.pending,
          TodoPriority.low, none, 0, 0⟩] =
      (get_todo_by_id "00000000000000000000000a"
        [⟨"00000000000000000000000a", "t", none, TodoStatus.pending,
          TodoPriority.low, none, 0, 0⟩],
        [⟨"00000000000000000000000a", "t", none, TodoStatus.pending,
          TodoPriority.low, none, 0, 0⟩]) :=
  ⟨by decide,
    empty_update_no_write 9 "00000000000000000000000a"
      ⟨none, none, none, none, none⟩
      [⟨"00000000000000000000000a", "t", none, TodoStatus.pending,
        TodoPriority.low, none, 0, 0⟩] (by decide)⟩

/-- C2: a partial update touching at least one field of an existing todo
changes exactly the supplied fields: every base field not populated in
the input keeps its stored value, `created_at` is unchanged, and
`updated_at` is refreshed to the (strictly later, as the clock advanced)
update instant. -/
theorem partial_update_frame (now : Nat) (todo_id : String) (u : TodoUpdate)
    (store : Store) (r : TodoInDB)
    (hvalid : isValidObjectId todo_id = true)
    (hfind : store.find? (idMatches todo_id) = some r)
    (hsome : hasUpdates u = true)
    (hclock : r.updated_at < now) :
    ∃ r', (update_todo now todo_id u store).1 = some r' ∧
      (u.title = none → r'.title = r.title) ∧
      (u.description = none → r'.description = r.description) ∧
      (u.status = none → r'.status = r.status) ∧
      (u.priority = none → r'.priority = r.priority) ∧
      (u.due_date = none → r'.due_date = r.due_date) ∧
      (∀ s, u.status = some s → r'.status = s) ∧
      r'.created_at = r.created_at ∧
      r'.updated_at = now ∧ r.updated_at < r'.updated_at := by
  have hne : applyUpdate u now r ≠ r := by
    intro he
    have : (applyUpdate u now r).updated_at = r.updated_at := by rw [he]
    simp only [applyUpdate] at this
    omega
  have hset := find_setFirst todo_id (applyUpdate u now) store r rfl hfind
  refine ⟨applyUpdate u now r, ?_, ?_, ?_, ?_, ?_, ?_, ?_, rfl, rfl, hclock⟩
  · simp [update_todo, hvalid, hsome, hfind, hne, get_todo_by_id, hset]
  · intro h
    simp [applyUpdate, h]
  · intro h
    simp [applyUpdate, h]
  · intro h
    simp [applyUpdate, h]
  · intro h
    simp [applyUpdate, h]
  · intro h
    simp [applyUpdate, h]
  · intro s hs
    simp [applyUpdate, hs]

/-- C2 witness: updating only the status of a stored record. -/
theorem partial_update_frame_witness :
    isValidObjectId "00000000000000000000000a" = true ∧
    ([⟨"00000000000000000000000a", "t", some "d", TodoStatus.pending,
        TodoPriority.low, some 3, 0, 0⟩] : Store).find?
        (idMatches "00000000000000000000000a") =
      some ⟨"00000000000000000000000a", "t", some "d", TodoStatus.pending,
        TodoPriority.low, some 3, 0, 0⟩ ∧
    hasUpdates ⟨none, none, some TodoStatus.completed, none, none⟩ = true ∧
    (0 : Nat) < 4 ∧
    (∃ r', (update_todo 4 "00000000000000000000000a"
        ⟨none, none, some TodoStatus.completed, none, none⟩
        [⟨"00000000000000000000000a", "t", some "d", TodoStatus.pending,
          TodoPriority.low, some 3, 0, 0⟩]).1 = some r' ∧
      ((none : Option String) = none → r'.title = "t") ∧
      ((none : Option String) = none → r'.description = some "d") ∧
      ((some TodoStatus.completed : Option TodoStatus) = none →
        r'.status = TodoStatus.pending) ∧
      ((none : Option TodoPriority) = none → r'.priority = TodoPriority.low) ∧
      ((none : Option Nat) = none → r'.due_date = some 3) ∧
      (∀ s, (some TodoStatus.completed : Option TodoStatus) = some s →
        r'.status = s) ∧
      r'.created_at = 0 ∧
      r'.updated_at = 4 ∧ (0 : Nat) < r'.updated_at) :=
  ⟨by decide, by decide, by decide, by decide,
    partial_update_frame 4 "00000000000000000000000a"
      ⟨none, none, some TodoStatus.completed, none, none⟩
      [⟨"00000000000000000000000a", "t", some "d", TodoStatus.pending,
        TodoPriority.low, some 3, 0, 0⟩]
      ⟨"00000000000000000000000a", "t", some "d", TodoStatus.pending,
        TodoPriority.low, some 3, 0, 0⟩
      (by decide) (by decide) (by decide) (by decide)⟩

/-- C10: a `none` field in a partial update is treated as if it were not
supplied at all: whenever `update_todo` returns a record, a `none`
description or due date in the input leaves the stored value intact, so a
once-set description or due date can never be cleared back to absent. -/
theorem update_none_never_clears (now : Nat) (todo_id : String) (u : TodoUpdate)
    (store : Store) (r' : TodoInDB)
    (h : (update_todo now todo_id u store).1 = some r') :
    ∃ r, store.find? (idMatches todo_id) = some r ∧
      (u.description = none → r'.description = r.description) ∧
      (u.due_date = none → r'.due_date = r.due_date) ∧
      (r.description.isSome = true → r'.description.isSome = true) ∧
      (r.due_date.isSome = true → r'.due_date.isSome = true) := by
  by_cases hv : isValidObjectId todo_id = true
  · by_cases hu : hasUpdates u = true
    · cases hfind : store.find? (idMatches todo_id) with
      | none => simp [update_todo, hv, hu, hfind] at h
      | some m =>
        by_cases hne : applyUpdate u now m = m
        · simp [update_todo, hv, hu, hfind, hne] at h
        · have hset := find_setFirst todo_id (applyUpdate u now) store m rfl hfind
          simp [update_todo, hv, hu, hfind, hne, get_todo_by_id, hset] at h
          refine ⟨m, rfl, ?_, ?_, ?_, ?_⟩
          · intro hd
            simp [← h, applyUpdate, hd]
          · intro hd
            simp [← h, applyUpdate, hd]
          · intro hd
            cases hud : u.description with
            | none => simpa [← h, applyUpdate, hud] using hd
            | some d => simp [← h, applyUpdate, hud]
          · intro hd
            cases hud : u.due_date with
            | none => simpa [← h, applyUpdate, hud] using hd
            | some d => simp [← h, applyUpdate, hud]
    · rw [Bool.not_eq_true] at hu
      simp only [update_todo, hv, hu, Bool.not_false, Bool.not_true,
        Bool.false_eq_true, if_false, if_true] at h
      rw [get_todo_by_id, hv] at h
      simp only [Bool.not_true, Bool.false_eq_true, if_false] at h
      exact ⟨r', h, fun _ => rfl, fun _ => rfl, fun hd => hd, fun hd => hd⟩
  · rw [Bool.not_eq_true] at hv
    simp [update_todo, hv] at h

/-- C10 witness: a status-only update leaves a set description and due
date in place. -/
theorem update_none_never_clears_witness :
    (update_todo 4 "00000000000000000000000a"
        ⟨none, none, some TodoStatus.completed, none, none⟩
        [⟨"00000000000000000000000a", "t", some "d", TodoStatus.pending,
          TodoPriority.low, some 3, 0, 0⟩]).1 =
      some ⟨"00000000000000000000000a", "t", some "d", TodoStatus.completed,
        TodoPriority.low, some 3, 0, 4⟩ ∧
    (∃ r, ([⟨"00000000000000000000000a", "t", some "d", TodoStatus.pending,
          TodoPriority.low, some 3, 0, 0⟩] : Store).find?
          (idMatches "00000000000000000000000a") = some r ∧
      ((none : Option String) = none →
        (⟨"00000000000000000000000a", "t", some "d", TodoStatus.completed,
          TodoPriority.low, some 3, 0, 4⟩ : TodoInDB).description =
          r.description) ∧
      ((none : Option Nat) = none →
        (⟨"00000000000000000000000a", "t", some "d", TodoStatus.completed,
          TodoPriority.low, some 3, 0, 4⟩ : TodoInDB).due_date = r.due_date) ∧
      (r.description.isSome = true →
        (⟨"00000000000000000000000a", "t", some "d", TodoStatus.completed,
          TodoPriority.low, some 3, 0, 4⟩ : TodoInDB).description.isSome =
          true) ∧
      (r.due_date.isSome = true →
        (⟨"00000000000000000000000a", "t", some "d", TodoStatus.completed,
          TodoPriority.low, some 3, 0, 4⟩ : TodoInDB).due_date.isSome =
          true)) :=
  ⟨by decide,
    update_none_never_clears 4 "00000000000000000000000a"
      ⟨none, none, some TodoStatus.completed, none, none⟩
      [⟨"00000000000000000000000a", "t", some "d", TodoStatus.pending,
        TodoPriority.low, some 3, 0, 0⟩]
      ⟨"00000000000000000000000a", "t", some "d", TodoStatus.completed,
        TodoPriority.low, some 3, 0, 4⟩ (by decide)⟩

/-- C6: deleting with a malformed id returns `false`; deleting a
well-formed but absent id returns `false` on the first and on a repeated
call; deleting an id held by exactly one record returns `true`, removes
exactly one record, and a second delete of the same id returns `false`. -/
theorem delete_todo_spec (bad_id todo_id : String) (store0 store1 : Store)
    (hmal : isValidObjectId bad_id = false)
    (hval : isValidObjectId todo_id = true)
    (hnone : ∀ r ∈ store0, idMatches todo_id r = false)
    (hone : (store1.filter (idMatches todo_id)).length = 1) :
    delete_todo bad_id store0 = (false, store0) ∧
    delete_todo todo_id store0 = (false, store0) ∧
    delete_todo todo_id (delete_todo todo_id store0).2 = (false, store0) ∧
    (delete_todo todo_id store1).1 = true ∧
    (delete_todo todo_id store1).2.length + 1 = store1.length ∧
    delete_todo todo_id (delete_todo todo_id store1).2 =
      (false, (delete_todo todo_id store1).2) := by
  have hany0 : store0.any (idMatches todo_id) = false := by
    rw [List.any_eq_false]
    intro x hx
    simp [hnone x hx]
  have h2 : delete_todo todo_id store0 = (false, store0) := by
    simp [delete_todo, hval, hany0, deleteFirst_no_match todo_id store0 hnone]
  obtain ⟨hany1, hlen, hnomatch⟩ := deleteFirst_one_match todo_id store1 hone
  have h4 : delete_todo todo_id store1 = (true, deleteFirst todo_id store1) := by
    simp [delete_todo, hval, hany1]
  have hany2 : (deleteFirst todo_id store1).any (idMatches todo_id) = false := by
    rw [List.any_eq_false]
    intro x hx
    simp [hnomatch x hx]
  refine ⟨by simp [delete_todo, hmal], h2, ?_, by rw [h4], ?_, ?_⟩
  · rw [h2]
    exact h2
  · rw [h4]
    exact hlen
  · rw [h4]
    simp [delete_todo, hval, hany2,
      deleteFirst_no_match todo_id (deleteFirst todo_id store1) hnomatch]

/-- C6 witness: the three delete scenarios on concrete stores. -/
theorem delete_todo_spec_witness :
    isValidObjectId "zz" = false ∧
    isValidObjectId "00000000000000000000000b" = true ∧
    (∀ r ∈ ([] : Store), idMatches "00000000000000000000000b" r = false) ∧
    ((([⟨"00000000000000000000000b", "t", none, TodoStatus.pending,
        TodoPriority.low, none, 0, 0⟩] : Store).filter
        (idMatches "00000000000000000000000b")).length = 1) ∧
    (delete_todo "zz" [] = (false, []) ∧
      delete_todo "00000000000000000000000b" [] = (false, []) ∧
      delete_todo "00000000000000000000000b"
        (delete_todo "00000000000000000000000b" []).2 = (false, []) ∧
      (delete_todo "00000000000000000000000b"
        [⟨"00000000000000000000000b", "t", none, TodoStatus.pending,
          TodoPriority.low, none, 0, 0⟩]).1 = true ∧
      (delete_todo "00000000000000000000000b"
        [⟨"00000000000000000000000b", "t", none, TodoStatus.pending,
          TodoPriority.low, none, 0, 0⟩]).2.length + 1 =
        ([⟨"00000000000000000000000b", "t", none, TodoStatus.pending,
          TodoPriority.low, none, 0, 0⟩] : Store).length ∧
      delete_todo "00000000000000000000000b"
        (delete_todo "00000000000000000000000b"
          [⟨"00000000000000000000000b", "t", none, TodoStatus.pending,
            TodoPriority.low, none, 0, 0⟩]).2 =
        (false, (delete_todo "00000000000000000000000b"
          [⟨"00000000000000000000000b", "t", none, TodoStatus.pending,
            TodoPriority.low, none, 0, 0⟩]).2)) :=
  ⟨by decide, by decide, by simp, by decide,
    delete_todo_spec "zz" "00000000000000000000000b" []
      [⟨"00000000000000000000000b", "t", none, TodoStatus.pending,
        TodoPriority.low, none, 0, 0⟩]
      (by decide) (by decide) (by simp) (by decide)⟩

/-- C7: the overdue list holds exactly the stored records whose due date
is a set instant strictly before `now` and whose status is not
`completed`; completing such a record removes it from the overdue list
without changing its due date. -/
theorem overdue_spec (now now2 m : Nat) (todo_id : String) (store : Store)
    (r : TodoInDB)
    (hvalid : isValidObjectId todo_id = true)
    (hfind : store.find? (idMatches todo_id) = some r)
    (hnc : r.status ≠ TodoStatus.completed) :
    (∀ x, x ∈ get_overdue_todos now store ↔
      x ∈ store ∧ (∃ d, x.due_date = some d ∧ d < now) ∧
        x.status ≠ TodoStatus.completed) ∧
    (∃ r', (update_todo now2 todo_id
        ⟨none, none, some TodoStatus.completed, none, none⟩ store).1 = some r' ∧
      r'.due_date = r.due_date ∧
      r' ∉ get_overdue_todos m (update_todo now2 todo_id
        ⟨none, none, some TodoStatus.completed, none, none⟩ store).2) := by
  constructor
  · intro x
    rw [get_overdue_todos, List.mem_filter, isOverdue]
    cases x.due_date <;> simp_all
  · have hne : applyUpdate ⟨none, none, some TodoStatus.completed, none, none⟩
        now2 r ≠ r := by
      intro he
      apply hnc
      rw [← he]
      simp [applyUpdate]
    have hset := find_setFirst todo_id
      (applyUpdate ⟨none, none, some TodoStatus.completed, none, none⟩ now2)
      store r rfl hfind
    refine ⟨applyUpdate ⟨none, none, some TodoStatus.completed, none, none⟩
        now2 r, ?_, by simp [applyUpdate], ?_⟩
    · simp [update_todo, hvalid, hasUpdates, hfind, hne, get_todo_by_id, hset]
    · have hres : (update_todo now2 todo_id
          ⟨none, none, some TodoStatus.completed, none, none⟩ store).2 =
          setFirst todo_id
            (applyUpdate ⟨none, none, some TodoStatus.completed, none, none⟩
              now2) store := by
        simp [update_todo, hvalid, hasUpdates, hfind, hne]
      rw [hres]
      intro hmem
      have hov := (List.mem_filter.mp hmem).2
      simp [isOverdue, applyUpdate] at hov

/-- C7 witness: completing an overdue record on a one-record store. -/
theorem overdue_spec_witness :
    isValidObjectId "00000000000000000000000c" = true ∧
    ([⟨"00000000000000000000000c", "t", none, TodoStatus.pending,
        TodoPriority.low, some 1, 0, 0⟩] : Store).find?
        (idMatches "00000000000000000000000c") =
      some ⟨"00000000000000000000000c", "t", none, TodoStatus.pending,
        TodoPriority.low, some 1, 0, 0⟩ ∧
    (⟨"00000000000000000000000c", "t", none, TodoStatus.pending,
      TodoPriority.low, some 1, 0, 0⟩ : TodoInDB).status ≠
      TodoStatus.completed ∧
    ((∀ x, x ∈ get_overdue_todos 5
        [⟨"00000000000000000000000c", "t", none, TodoStatus.pending,
          TodoPriority.low, some 1, 0, 0⟩] ↔
      x ∈ ([⟨"00000000000000000000000c", "t", none, TodoStatus.pending,
          TodoPriority.low, some 1, 0, 0⟩] : Store) ∧
        (∃ d, x.due_date = some d ∧ d < 5) ∧
        x.status ≠ TodoStatus.completed) ∧
    (∃ r', (update_todo 7 "00000000000000000000000c"
        ⟨none, none, some TodoStatus.completed, none, none⟩
        [⟨"00000000000000000000000c", "t", none, TodoStatus.pending,
          TodoPriority.low, some 1, 0, 0⟩]).1 = some r' ∧
      r'.due_date = some 1 ∧
      r' ∉ get_overdue_todos 9 (update_todo 7 "00000000000000000000000c"
        ⟨none, none, some TodoStatus.completed, none, none⟩
        [⟨"00000000000000000000000c", "t", none, TodoStatus.pending,
          TodoPriority.low, some 1, 0, 0⟩]).2)) :=
  ⟨by decide, by decide, by decide,
    overdue_spec 5 7 9 "00000000000000000000000c"
      [⟨"00000000000000000000000c", "t", none, TodoStatus.pending,
        TodoPriority.low, some 1, 0, 0⟩]
      ⟨"00000000000000000000000c", "t", none, TodoStatus.pending,
        TodoPriority.low, some 1, 0, 0⟩
      (by decide) (by decide) (by decide)⟩

/-- Store invariant: every stored record has `created_at ≤ updated_at`. -/
def timesOK (store : Store) : Bool :=
  store.all (fun r => decide (r.created_at ≤ r.updated_at))

/-- A monotone clock: `now` is at or after every stamp already stored. -/
def clockOK (now : Nat) (store : Store) : Bool :=
  store.all (fun r => decide (r.updated_at ≤ now))

/-- Every record of the new store whose id already existed keeps the
`created_at` some record of the old store had under that id. -/
def createdPreserved (old new : Store) : Bool :=
  new.all (fun s =>
    old.all (fun r => !(r.id == s.id)) ||
    old.any (fun r => r.id == s.id && r.created_at == s.created_at))

lemma update_todo_snd (now : Nat) (todo_id : String) (u : TodoUpdate)
    (store : Store) :
    (update_todo now todo_id u store).2 = store ∨
    (update_todo now todo_id u store).2 =
      setFirst todo_id (applyUpdate u now) store := by
  simp only [update_todo]
  split
  · exact Or.inl rfl
  · split
    · exact Or.inl rfl
    · split
      · exact Or.inl rfl
      · split
        · exact Or.inr rfl
        · exact Or.inl rfl

lemma delete_todo_snd (todo_id : String) (store : Store) :
    (delete_todo todo_id store).2 = store ∨
    (delete_todo todo_id store).2 = deleteFirst todo_id store := by
  simp only [delete_todo]
  split
  · exact Or.inl rfl
  · exact Or.inr rfl

lemma timesOK_of_mem (store' store : Store) (hsub : ∀ x ∈ store', x ∈ store)
    (hinv : timesOK store = true) : timesOK store' = true := by
  rw [timesOK, List.all_eq_true] at hinv ⊢
  exact fun x hx => hinv x (hsub x hx)

lemma createdPreserved_of_mem (store' store : Store)
    (hsub : ∀ x ∈ store', x ∈ store) : createdPreserved store store' = true := by
  rw [createdPreserved, List.all_eq_true]
  intro s hs
  rw [Bool.or_eq_true]
  right
  rw [List.any_eq_true]
  exact ⟨s, hsub s hs, by simp⟩

/-- C9: with `created_at ≤ updated_at` holding in the store and a clock
that has not gone backwards, every operation (create, update, delete)
preserves `created_at ≤ updated_at` for all stored records and never
changes the `created_at` a stored id already had. -/
theorem timestamps_invariant (now : Nat) (new_id todo_id : String)
    (d : TodoCreate) (u : TodoUpdate) (store : Store)
    (hinv : timesOK store = true)
    (hclock : clockOK now store = true)
    (hfresh : ∀ r ∈ store, idMatches new_id r = false) :
    timesOK (create_todo now new_id d store).2 = true ∧
    createdPreserved store (create_todo now new_id d store).2 = true ∧
    timesOK (update_todo now todo_id u store).2 = true ∧
    createdPreserved store (update_todo now todo_id u store).2 = true ∧
    timesOK (delete_todo todo_id store).2 = true ∧
    createdPreserved store (delete_todo todo_id store).2 = true := by
  have hinv' : ∀ x ∈ store, x.created_at ≤ x.updated_at := by
    rw [timesOK, List.all_eq_true] at hinv
    intro x hx
    simpa using hinv x hx
  have hclock' : ∀ x ∈ store, x.updated_at ≤ now := by
    rw [clockOK, List.all_eq_true] at hclock
    intro x hx
    simpa using hclock x hx
  refine ⟨?_, ?_, ?_, ?_, ?_, ?_⟩
  · rw [timesOK, List.all_eq_true]
    intro x hx
    simp only [create_todo, List.mem_append, List.mem_singleton] at hx
    rcases hx with hx | hx
    · simpa using hinv' x hx
    · simp [hx]
  · rw [createdPreserved, List.all_eq_true]
    intro s hs
    simp only [create_todo, List.mem_append, List.mem_singleton] at hs
    rw [Bool.or_eq_true]
    rcases hs with hs | hs
    · right
      rw [List.any_eq_true]
      exact ⟨s, hs, by simp⟩
    · left
      rw [List.all_eq_true]
      intro r hr
      have := hfresh r hr
      simp only [idMatches] at this
      simp [hs, this]
  · rcases update_todo_snd now todo_id u store with h | h <;> rw [h]
    · exact hinv
    · rw [timesOK, List.all_eq_true]
      intro x hx
      rcases mem_setFirst todo_id (applyUpdate u now) store x hx with hx' | ⟨r, hr, hxr⟩
      · simpa using hinv' x hx'
      · subst hxr
        simp only [applyUpdate]
        simpa using le_trans (hinv' r hr) (hclock' r hr)
  · rcases update_todo_snd now todo_id u store with h | h <;> rw [h]
    · exact createdPreserved_of_mem store store (fun x hx => hx)
    · rw [createdPreserved, List.all_eq_true]
      intro s hs
      rw [Bool.or_eq_true]
      right
      rw [List.any_eq_true]
      rcases mem_setFirst todo_id (applyUpdate u now) store s hs with hs' | ⟨r, hr, hsr⟩
      · exact ⟨s, hs', by simp⟩
      · subst hsr
        exact ⟨r, hr, by simp [applyUpdate]⟩
  · rcases delete_todo_snd todo_id store with h | h <;> rw [h]
    · exact hinv
    · exact timesOK_of_mem _ store (mem_deleteFirst todo_id store) hinv
  · rcases delete_todo_snd todo_id store with h | h <;> rw [h]
    · exact createdPreserved_of_mem store store (fun x hx => hx)
    · exact createdPreserved_of_mem _ store (mem_deleteFirst todo_id store)

/-- C9 witness: the invariant evaluated on a one-record store. -/
theorem timestamps_invariant_witness :
    timesOK [⟨"00000000000000000000000e", "t", none, TodoStatus.pending,
      TodoPriority.low, none, 0, 1⟩] = true ∧
    clockOK 2 [⟨"00000000000000000000000e", "t", none, TodoStatus.pending,
      TodoPriority.low, none, 0, 1⟩] = true ∧
    (∀ r ∈ ([⟨"00000000000000000000000e", "t", none, TodoStatus.pending,
        TodoPriority.low, none, 0, 1⟩] : Store),
      idMatches "00000000000000000000000d" r = false) ∧
    (timesOK (create_todo 2 "00000000000000000000000d"
        ⟨"u", none, TodoStatus.pending, TodoPriority.high, none⟩
        [⟨"00000000000000000000000e", "t", none, TodoStatus.pending,
          TodoPriority.low, none, 0, 1⟩]).2 = true ∧
      createdPreserved
        [⟨"00000000000000000000000e", "t", none, TodoStatus.pending,
          TodoPriority.low, none, 0, 1⟩]
        (create_todo 2 "00000000000000000000000d"
          ⟨"u", none, TodoStatus.pending, TodoPriority.high, none⟩
          [⟨"00000000000000000000000e", "t", none, TodoStatus.pending,
            TodoPriority.low, none, 0, 1⟩]).2 = true ∧
      timesOK (update_todo 2 "00000000000000000000000e"
        ⟨none, none, some TodoStatus.in_progress, none, none⟩
        [⟨"00000000000000000000000e", "t", none, TodoStatus.pending,
          TodoPriority.low, none, 0, 1⟩]).2 = true ∧
      createdPreserved
        [⟨"00000000000000000000000e", "t", none, TodoStatus.pending,
          TodoPriority.low, none, 0, 1⟩]
        (update_todo 2 "00000000000000000000000e"
          ⟨none, none, some TodoStatus.in_progress, none, none⟩
          [⟨"00000000000000000000000e", "t", none, TodoStatus.pending,
            TodoPriority.low, none, 0, 1⟩]).2 = true ∧
      timesOK (delete_todo "00000000000000000000000e"
        [⟨"00000000000000000000000e", "t", none, TodoStatus.pending,
          TodoPriority.low, none, 0, 1⟩]).2 = true ∧
      createdPreserved
        [⟨"00000000000000000000000e", "t", none, TodoStatus.pending,
          TodoPriority.low, none, 0, 1⟩]
        (delete_todo "00000000000000000000000e"
          [⟨"00000000000000000000000e", "t", none, TodoStatus.pending,
            TodoPriority.low, none, 0, 1⟩]).2 = true) :=
  ⟨by decide, by decide, by decide,
    timestamps_invariant 2 "00000000000000000000000d"
      "00000000000000000000000e"
      ⟨"u", none, TodoStatus.pending, TodoPriority.high, none⟩
      ⟨none, none, some TodoStatus.in_progress, none, none⟩
      [⟨"00000000000000000000000e", "t", none, TodoStatus.pending,
        TodoPriority.low, none, 0, 1⟩]
      (by decide) (by decide) (by decide)⟩

/-- The C8 scenario: starting from the empty store, three todos created
with priorities low, medium and high. -/
def c8Store : Store :=
  (create_todo 2 "000000000000000000000003"
    ⟨"t3", none, TodoStatus.pending, TodoPriority.high, none⟩
    ((create_todo 1 "000000000000000000000002"
      ⟨"t2", none, TodoStatus.pending, TodoPriority.medium, none⟩
      ((create_todo 0 "000000000000000000000001"
        ⟨"t1", none, TodoStatus.pending, TodoPriority.low, none⟩ []).2)).2)).2

/-- The C8 query: `listTodos(page=1, size=2, sort_by=priority,
sort_order=asc)` on that store. -/
def c8Page : TodoListResponse :=
  get_todos_service 1 2 none none "priority" "asc" c8Store

/-- C8 counterexample: on the three-record store the first page sorted
ascending by priority is NOT low, medium — the store compares the stored
priority strings byte-wise, and `"high" < "low" < "medium"`
lexicographically, so page 1 is high, low.  The claim as stated is false
at this input. -/
theorem c8_page_one_counterexample :
    ¬ (c8Page.todos.map TodoResponse.priority =
        [TodoPriority.low, TodoPriority.medium] ∧
      c8Page.total = 3 ∧ c8Page.pages = 2) := by decide

/-- C8 amended: after creating 3 entities with priorities low, medium and
high on an empty store, `listTodos(page=1, size=2, sort_by=priority,
sort_order=asc)` returns exactly 2 entities ordered high then low (the
store sorts the priority strings lexicographically), and reports
`total=3` and `pages=2`. -/
theorem c8_page_one_amended :
    c8Page.todos.map TodoResponse.priority =
      [TodoPriority.high, TodoPriority.low] ∧
    c8Page.todos.length = 2 ∧ c8Page.total = 3 ∧ c8Page.pages = 2 := by decide

/-- C3: the service computes `skip = (page - 1) * size`; the reported
total is the number of records matching the filter, whatever the page and
size; `pages` is `ceil(total / size)` for positive totals (characterised
by `total ≤ pages * size` and `(pages - 1) * size < total`) and `1` for an
empty result; and concatenating the items of pages `1 .. pages` yields
the whole sorted filtered set — exactly `total` items. -/
theorem pagination_spec (page size : Nat) (st : Option TodoStatus)
    (pr : Option TodoPriority) (sort_by sort_order : String) (store : Store)
    (hp : 1 ≤ page) (hs1 : 1 ≤ size) (hs2 : size ≤ 100) :
    ∃ total pages,
      get_todos_service page size st pr sort_by sort_order store =
        ⟨(((sortTodos (sortLe sort_by sort_order)
              (store.filter (matchesFilter st pr))).drop
            ((page - 1) * size)).take size).map toResponse,
          total, page, size, pages⟩ ∧
      total = (store.filter (matchesFilter st pr)).length ∧
      total ≤ pages * size ∧
      (0 < total → (pages - 1) * size < total) ∧
      (total = 0 → pages = 1) ∧
      ((List.range pages).map (fun i =>
          (get_todos_service (i + 1) size st pr sort_by sort_order
            store).todos)).flatten =
        (sortTodos (sortLe sort_by sort_order)
          (store.filter (matchesFilter st pr))).map toResponse ∧
      ((List.range pages).map (fun i =>
          (get_todos_service (i + 1) size st pr sort_by sort_order
            store).todos)).flatten.length = total := by
  have hszb : (size == 0) = false := by
    simp
    omega
  refine ⟨(store.filter (matchesFilter st pr)).length,
    if (store.filter (matchesFilter st pr)).length > 0 then
      ((store.filter (matchesFilter st pr)).length + size - 1) / size
    else 1, ?_, rfl, ?_, ?_, ?_, ?_, ?_⟩
  · simp [get_todos_service, get_todos_repo, applyLimit, hszb]
  · by_cases h0 : (store.filter (matchesFilter st pr)).length > 0
    · rw [if_pos h0]
      have hmod := Nat.div_add_mod
        ((store.filter (matchesFilter st pr)).length + size - 1) size
      have hlt : ((store.filter (matchesFilter st pr)).length + size - 1) % size
          < size := Nat.mod_lt _ (by omega)
      have hcomm : ((store.filter (matchesFilter st pr)).length + size - 1) /
            size * size =
          size * (((store.filter (matchesFilter st pr)).length + size - 1) /
            size) := Nat.mul_comm _ _
      omega
    · rw [if_neg h0]
      omega
  · intro h0
    rw [if_pos h0]
    have hmod := Nat.div_add_mod
      ((store.filter (matchesFilter st pr)).length + size - 1) size
    have hlt : ((store.filter (matchesFilter st pr)).length + size - 1) % size
        < size := Nat.mod_lt _ (by omega)
    have hcomm : (((store.filter (matchesFilter st pr)).length + size - 1) /
          size - 1) * size =
        size * (((store.filter (matchesFilter st pr)).length + size - 1) /
          size) - size := by
      rw [Nat.sub_mul, one_mul, Nat.mul_comm]
    have hq1 : 1 ≤ ((store.filter (matchesFilter st pr)).length + size - 1) /
        size := by
      rw [Nat.le_div_iff_mul_le (by omega)]
      omega
    omega
  · intro h0
    rw [if_neg (by omega)]
  · have hgen : ∀ i,
        (get_todos_service (i + 1) size st pr sort_by sort_order store).todos =
          (((sortTodos (sortLe sort_by sort_order)
              (store.filter (matchesFilter st pr))).map toResponse).drop
            (i * size)).take size := by
      intro i
      simp [get_todos_service, get_todos_repo, applyLimit, hszb,
        List.map_take, List.map_drop]
    simp only [hgen]
    have hlen : ((sortTodos (sortLe sort_by sort_order)
        (store.filter (matchesFilter st pr))).map toResponse).length =
        (store.filter (matchesFilter st pr)).length := by
      rw [List.length_map, length_sortTodos]
    have hpages : (if (store.filter (matchesFilter st pr)).length > 0 then
          ((store.filter (matchesFilter st pr)).length + size - 1) / size
        else 1) =
        (if ((sortTodos (sortLe sort_by sort_order)
            (store.filter (matchesFilter st pr))).map toResponse).length = 0
          then 1
          else (((sortTodos (sortLe sort_by sort_order)
            (store.filter (matchesFilter st pr))).map toResponse).length +
              size - 1) / size) := by
      rw [hlen]
      rcases Nat.eq_zero_or_pos (store.filter (matchesFilter st pr)).length
        with h0 | h0
      · simp [h0]
      · rw [if_pos h0, if_neg (by omega)]
    rw [hpages]
    exact join_chunks size _ (by omega)
  · have hgen : ∀ i,
        (get_todos_service (i + 1) size st pr sort_by sort_order store).todos =
          (((sortTodos (sortLe sort_by sort_order)
              (store.filter (matchesFilter st pr))).map toResponse).drop
            (i * size)).take size := by
      intro i
      simp [get_todos_service, get_todos_repo, applyLimit, hszb,
        List.map_take, List.map_drop]
    simp only [hgen]
    have hlen : ((sortTodos (sortLe sort_by sort_order)
        (store.filter (matchesFilter st pr))).map toResponse).length =
        (store.filter (matchesFilter st pr)).length := by
      rw [List.length_map, length_sortTodos]
    have hpages : (if (store.filter (matchesFilter st pr)).length > 0 then
          ((store.filter (matchesFilter st pr)).length + size - 1) / size
        else 1) =
        (if ((sortTodos (sortLe sort_by sort_order)
            (store.filter (matchesFilter st pr))).map toResponse).length = 0
          then 1
          else (((sortTodos (sortLe sort_by sort_order)
            (store.filter (matchesFilter st pr))).map toResponse).length +
              size - 1) / size) := by
      rw [hlen]
      rcases Nat.eq_zero_or_pos (store.filter (matchesFilter st pr)).length
        with h0 | h0
      · simp [h0]
      · rw [if_pos h0, if_neg (by omega)]
    rw [hpages, join_chunks size _ (by omega)]
    exact hlen

/-- C3 witness: the pagination contract evaluated at page 1, size 1 on
the empty store. -/
theorem pagination_spec_witness :
    (1 : Nat) ≤ 1 ∧ (1 : Nat) ≤ 1 ∧ (1 : Nat) ≤ 100 ∧
    (∃ total pages,
      get_todos_service 1 1 none none "created_at" "desc" [] =
        ⟨(((sortTodos (sortLe "created_at" "desc")
              (([] : Store).filter (matchesFilter none none))).drop
            ((1 - 1) * 1)).take 1).map toResponse,
          total, 1, 1, pages⟩ ∧
      total = (([] : Store).filter (matchesFilter none none)).length ∧
      total ≤ pages * 1 ∧
      (0 < total → (pages - 1) * 1 < total) ∧
      (total = 0 → pages = 1) ∧
      ((List.range pages).map (fun i =>
          (get_todos_service (i + 1) 1 none none "created_at" "desc"
            []).todos)).flatten =
        (sortTodos (sortLe "created_at" "desc")
          (([] : Store).filter (matchesFilter none none))).map toResponse ∧
      ((List.range pages).map (fun i =>
          (get_todos_service (i + 1) 1 none none "created_at" "desc"
            []).todos)).flatten.length = total) :=
  ⟨by decide, by decide, by decide,
    pagination_spec 1 1 none none "created_at" "desc" []
      (by decide) (by decide) (by decide)⟩

end TodoApp
